import Mathlib

/-!
Verification of the filter-and-aggregate pipeline of the Superstore sales
dashboard (`src/app.py`).  The pandas dataframe of transaction records is
embedded as a `List Record`; dataframe operations (boolean-mask filtering,
`groupby(...).sum()`, `nlargest`, `mean`, `to_csv`, `describe`) are embedded
as Lean functions on such lists, following the semantics of the pandas calls
made by the source.  Dates are embedded with their calendar components plus
an absolute day number (`serial`), which is what datetime comparison and
day-difference arithmetic act on.  Currency and quantity values are embedded
as rationals; the float division `Profit / Sales` (which can produce
infinities and NaN when `Sales = 0`) is embedded by the extended-rational
type `EQ` below.
-/

/-- A calendar date as produced by `pd.to_datetime(..., format return ...)`:
its year and month components (used for the derived `Year`/`Month` columns)
and its absolute day number `serial`, on which chronological comparison and
whole-day subtraction operate. -/
structure DateT where
  year : Int
  month : Int
  day : Int
  serial : Int
deriving DecidableEq, Repr

/-- One transaction record, with the input columns listed in the dataset
schema (Order Date, Ship Date, Ship Mode, Region, Category, Segment, State,
City, Product Name, Sub-Category, Customer Name, Customer ID, Order ID,
Sales, Profit, Quantity, Discount). -/
structure Record where
  orderID : String
  orderDate : DateT
  shipDate : DateT
  shipMode : String
  customerID : String
  customerName : String
  segment : String
  state : String
  city : String
  region : String
  productName : String
  category : String
  subCategory : String
  sales : Rat
  profit : Rat
  quantity : Int
  discount : Rat
deriving DecidableEq, Repr

/-- The filter criteria assembled from the sidebar widgets: the selected
date range (two dates, compared by day number) and the four multiselect
value lists. -/
structure Criteria where
  startDate : Int
  endDate : Int
  regions : List String
  categories : List String
  segments : List String
  states : List String
deriving DecidableEq, Repr

/-- The conjunction of boolean masks of `app.py` lines 104-108:
`Order Date` within the selected range (inclusive on both ends) and
`isin` membership for `Region`, `Category` and `Segment`. -/
def rowPred (c : Criteria) (r : Record) : Bool :=
  decide (c.startDate ≤ r.orderDate.serial) &&
  decide (r.orderDate.serial ≤ c.endDate) &&
  decide (r.region ∈ c.regions) &&
  decide (r.category ∈ c.categories) &&
  decide (r.segment ∈ c.segments)

/-- The dataframe `filtered_df` as first assigned (lines 103-109), before
the optional state filter. -/
def filtered_df_base (df : List Record) (c : Criteria) : List Record :=
  df.filter (rowPred c)

/-- The final `filtered_df` (lines 103-112): the base filter, then, only
when the `states` multiselect is non-empty (`if states:`), a further
`isin(states)` filter. -/
def filtered_df (df : List Record) (c : Criteria) : List Record :=
  if c.states.isEmpty then filtered_df_base df c
  else (filtered_df_base df c).filter (fun r => decide (r.state ∈ c.states))

/-- A sample date (2023-01-05, with an arbitrary but consistent absolute
day number). -/
def exDate : DateT := ⟨2023, 1, 5, 738890⟩

/-- A second sample date, four days later. -/
def exDate2 : DateT := ⟨2023, 1, 9, 738894⟩

/-- A sample record in the East region. -/
def exRecord : Record :=
  ⟨"CA-1", exDate, exDate2, "Standard Class", "C-1", "Alice", "Consumer",
    "New York", "NYC", "East", "Stapler", "Office Supplies", "Binders",
    100, 10, 2, 0⟩

/-- A second sample record in the West region. -/
def exRecord2 : Record :=
  ⟨"CA-2", exDate, exDate2, "Second Class", "C-2", "Bob", "Corporate",
    "California", "LA", "West", "Chair", "Furniture", "Chairs",
    200, 40, 1, 0⟩

/-- A sample two-record dataset. -/
def exDf : List Record := [exRecord, exRecord2]

/-- Sample criteria selecting the East region and the state of the sample
record. -/
def exCriteria : Criteria :=
  ⟨738880, 738900, ["East"], ["Office Supplies"], ["Consumer"], ["New York"]⟩

/-- Sample criteria with an empty states selection. -/
def exCriteriaNoState : Criteria :=
  ⟨738880, 738900, ["East", "West"], ["Office Supplies", "Furniture"],
    ["Consumer", "Corporate"], []⟩

/-- Sample criteria with an empty regions selection. -/
def exCriteriaEmptyRegions : Criteria :=
  ⟨738880, 738900, [], ["Office Supplies", "Furniture"],
    ["Consumer", "Corporate"], []⟩

/-- Insertion step of a stable insertion sort: place `a` before the first
element `b` with `r a b = true`. -/
def insertBy {α : Type} (r : α → α → Bool) (a : α) : List α → List α
  | [] => [a]
  | b :: l => if r a b then a :: b :: l else b :: insertBy r a l

/-- Stable insertion sort by the Bool relation `r` (`r a b = true` meaning
`a` may come before `b`).  This models the stable sorting performed by the
pandas calls of the source: `groupby` (keys ascending) and `nlargest`
(values descending, first occurrence kept on ties). -/
def isortBy {α : Type} (r : α → α → Bool) : List α → List α
  | [] => []
  | a :: l => insertBy r a (isortBy r l)

/-- Lexicographic comparison of character lists, by code point. -/
def charListLeB : List Char → List Char → Bool
  | [], _ => true
  | _ :: _, [] => false
  | a :: as, b :: bs => if a < b then true else if b < a then false else charListLeB as bs

/-- Ascending lexicographic string comparison (by code point), the order
`groupby` applies to its keys. -/
def strLeB (a b : String) : Bool := charListLeB a.data b.data

/-- Descending comparison on the reduction value of a grouped row, as
applied by `nlargest`. -/
def valDescB (a b : String × Rat) : Bool := decide (b.2 ≤ a.2)

/-- The pandas pattern `view.groupby(key)[val].sum().reset_index()`: one row
per distinct key (keys ascending, the `groupby` default), carrying the sum
of `val` over the rows of the group. -/
def groupBySum (key : Record → String) (val : Record → Rat)
    (view : List Record) : List (String × Rat) :=
  (isortBy strLeB ((view.map key).dedup)).map
    (fun k => (k, ((view.filter (fun r => decide (key r = k))).map val).sum))

/-- Line 120: `filtered_df['Sales'].sum()`. -/
def total_sales (view : List Record) : Rat := (view.map (fun r => r.sales)).sum

/-- Line 181: `filtered_df.groupby('Category')['Sales'].sum().reset_index()`. -/
def category_sales (view : List Record) : List (String × Rat) :=
  groupBySum (fun r => r.category) (fun r => r.sales) view

/-- Line 194: `filtered_df.groupby('Region')['Sales'].sum().reset_index()`. -/
def region_sales (view : List Record) : List (String × Rat) :=
  groupBySum (fun r => r.region) (fun r => r.sales) view

/-- Line 211: `filtered_df.groupby('State')['Sales'].sum().reset_index()`. -/
def state_sales (view : List Record) : List (String × Rat) :=
  groupBySum (fun r => r.state) (fun r => r.sales) view

/-- Line 257, inner part: `filtered_df.groupby('Product Name')['Sales'].sum()`. -/
def product_sales (view : List Record) : List (String × Rat) :=
  groupBySum (fun r => r.productName) (fun r => r.sales) view

/-- The pandas `nlargest(n, value)` with the default `keep` policy (first):
the n largest rows by value, descending, first occurrence kept on ties;
equivalently, the first n rows of a stable descending sort. -/
def nlargest (n : Nat) (l : List (String × Rat)) : List (String × Rat) :=
  (isortBy valDescB l).take n

/-- Line 212: `state_sales.nlargest(10, 'Sales')`. -/
def top_states (view : List Record) : List (String × Rat) :=
  nlargest 10 (state_sales view)

/-- Line 257: `...groupby('Product Name')['Sales'].sum().nlargest(10)`. -/
def top_products (view : List Record) : List (String × Rat) :=
  nlargest 10 (product_sales view)

/-- A sample grouped-sum result with a tie (value 5 appears twice). -/
def exGrouped : List (String × Rat) := [("A", 5), ("B", 7), ("C", 5)]

/-- An IEEE-754 double as produced by the pandas arithmetic of the source,
restricted to the values that arise there: a finite value (embedded
exactly as a rational), the two infinities, and NaN. -/
inductive EQ where
  | fin (q : Rat)
  | pinf
  | ninf
  | nan
deriving DecidableEq, Repr

/-- IEEE addition on `EQ` (finite addition is exact in the embedding). -/
def eqAdd : EQ → EQ → EQ
  | .nan, _ => .nan
  | _, .nan => .nan
  | .pinf, .ninf => .nan
  | .ninf, .pinf => .nan
  | .pinf, _ => .pinf
  | _, .pinf => .pinf
  | .ninf, _ => .ninf
  | _, .ninf => .ninf
  | .fin a, .fin b => .fin (a + b)

/-- The float expression `(profit / sales) * 100` of lines 53 and 276:
division by a zero `Sales` produces a signed infinity (or NaN when the
profit is also zero). -/
def pdMargin (sales profit : Rat) : EQ :=
  if sales ≠ 0 then .fin (profit / sales * 100)
  else if profit > 0 then .pinf
  else if profit < 0 then .ninf
  else .nan

/-- The derived `Profit Margin` column of line 53. -/
def profitMargin (r : Record) : EQ := pdMargin r.sales r.profit

/-- The pandas `Series.mean()`: NaN entries are skipped (`skipna` default),
every other entry — infinities included — is folded into sum/count. -/
def nanMean (xs : List EQ) : EQ :=
  let v := xs.filter (fun x => ! decide (x = EQ.nan))
  if v.length = 0 then .nan
  else
    match v.foldr eqAdd (.fin 0) with
    | .fin s => .fin (s / (v.length : Rat))
    | .pinf => .pinf
    | .ninf => .ninf
    | .nan => .nan

/-- Line 132: `filtered_df['Profit Margin'].mean()`. -/
def avg_profit_margin (view : List Record) : EQ :=
  nanMean (view.map profitMargin)

/-- Modelled from the spec: the NaN-safe contract of the mean profit margin
metric — every non-finite margin is excluded and the mean is taken over the
finite margins only ("exclude non-finite margins from the mean"). -/
def avg_profit_margin_spec (view : List Record) : EQ :=
  let v := (view.map profitMargin).filterMap
    (fun x => match x with | .fin q => some q | _ => none)
  if v.length = 0 then .nan else .fin (v.sum / (v.length : Rat))

/-- A record with zero sales and positive profit, whose margin is the
float `+inf`. -/
def exRecZeroSales : Record :=
  ⟨"CA-3", exDate, exDate2, "Standard Class", "C-3", "Carol", "Consumer",
    "New York", "NYC", "East", "Pen", "Office Supplies", "Art", 0, 10, 1, 0⟩

/-- Line 312: `(filtered_df['Ship Date'] - filtered_df['Order Date']).dt.days`,
the whole-day difference of the two dates. -/
def shippingDays (r : Record) : Int := r.shipDate.serial - r.orderDate.serial

/-- The pandas pattern `view.groupby(key)[val].mean().reset_index()` for an
integer-valued column without missing values: per group, the exact mean. -/
def groupByMeanZ (key : Record → String) (val : Record → Int)
    (view : List Record) : List (String × Rat) :=
  (isortBy strLeB ((view.map key).dedup)).map
    (fun k =>
      let g := view.filter (fun r => decide (key r = k))
      (k, (g.map (fun r => (val r : Rat))).sum / (g.length : Rat)))

/-- Line 313: `filtered_df.groupby('Ship Mode')['Shipping Days'].mean()`. -/
def ship_time (view : List Record) : List (String × Rat) :=
  groupByMeanZ (fun r => r.shipMode) shippingDays view

/-- A record whose ship date precedes its order date by four days. -/
def exRecNegShip : Record :=
  ⟨"CA-4", exDate2, exDate, "Standard Class", "C-4", "Dan", "Consumer",
    "New York", "NYC", "East", "Pen", "Office Supplies", "Art", 50, 5, 1, 0⟩

/-- Lines 272-275: `filtered_df.groupby('Sub-Category').agg` with sum of
`Sales` and sum of `Profit`. -/
def subcat_data (view : List Record) : List (String × Rat × Rat) :=
  (isortBy strLeB ((view.map (fun r => r.subCategory)).dedup)).map
    (fun k =>
      let g := view.filter (fun r => decide (r.subCategory = k))
      (k, (g.map (fun r => r.sales)).sum, (g.map (fun r => r.profit)).sum))

/-- Line 276: the per-group `Profit Margin` column, the float
`(Profit / Sales) * 100` computed on the group sums. -/
def subcat_margin (view : List Record) : List (String × EQ) :=
  (subcat_data view).map (fun x => (x.1, pdMargin x.2.1 x.2.2))

/-- One in-memory pandas dataframe object: its rows and whether the derived
`Shipping Days` column has been assigned to it. -/
structure PandasFrame where
  rows : List Record
  hasShipDays : Bool
deriving DecidableEq, Repr

/-- The dataframe objects alive during one filter-aggregate cycle, in
allocation order: index 0 is the loaded `df`, index 1 the `filtered_df`
object.  Boolean-mask selection (lines 103-112) returns a new frame (a
copy), and the in-place assignment of `Shipping Days` (line 312) rewrites
only the frame it is applied to; every other pipeline step is a read. -/
def runCycle (df : List Record) (c : Criteria) : List PandasFrame :=
  let store1 := [PandasFrame.mk df false, PandasFrame.mk (filtered_df df c) false]
  store1.set 1 (PandasFrame.mk (filtered_df df c) true)

/-- Negation on `EQ`. -/
def eqNeg : EQ → EQ
  | .fin q => .fin (-q)
  | .pinf => .ninf
  | .ninf => .pinf
  | .nan => .nan

/-- IEEE subtraction on `EQ`. -/
def eqSub (a b : EQ) : EQ := eqAdd a (eqNeg b)

/-- IEEE multiplication on `EQ` (zero times an infinity is NaN). -/
def eqMul : EQ → EQ → EQ
  | .nan, _ => .nan
  | _, .nan => .nan
  | .fin a, .fin b => .fin (a * b)
  | .fin a, .pinf => if 0 < a then .pinf else if a < 0 then .ninf else .nan
  | .fin a, .ninf => if 0 < a then .ninf else if a < 0 then .pinf else .nan
  | .pinf, .fin b => if 0 < b then .pinf else if b < 0 then .ninf else .nan
  | .ninf, .fin b => if 0 < b then .ninf else if b < 0 then .pinf else .nan
  | .pinf, .pinf => .pinf
  | .pinf, .ninf => .ninf
  | .ninf, .pinf => .ninf
  | .ninf, .ninf => .pinf

/-- Ascending order on non-NaN `EQ` values (NaN entries are removed before
any use; the NaN cases only make the function total). -/
def eqLeB : EQ → EQ → Bool
  | .nan, _ => true
  | _, .nan => false
  | .ninf, _ => true
  | .fin _, .ninf => false
  | .fin a, .fin b => decide (a ≤ b)
  | .fin _, .pinf => true
  | .pinf, .pinf => true
  | .pinf, _ => false

/-- Drop the NaN entries of a column, as pandas `skipna` reductions do. -/
def dropNan (xs : List EQ) : List EQ := xs.filter (fun x => ! decide (x = EQ.nan))

/-- Series minimum, skipna: NaN on an all-NaN column. -/
def nanMin (xs : List EQ) : EQ := (isortBy eqLeB (dropNan xs)).headD .nan

/-- Series maximum, skipna. -/
def nanMax (xs : List EQ) : EQ := (isortBy eqLeB (dropNan xs)).getLastD .nan

/-- The percentile with linear interpolation used by `describe` (the numpy
default): position `p * (n - 1)` in the ascending non-NaN values,
interpolating between the two neighbouring values. -/
def quantileEQ (p : Rat) (xs : List EQ) : EQ :=
  let s := isortBy eqLeB (dropNan xs)
  if s.length = 0 then .nan
  else
    let h : Rat := p * ((s.length : Rat) - 1)
    let i : Nat := h.floor.toNat
    let g : Rat := h - (i : Rat)
    let a := s.getD i .nan
    let b := s.getD (i + 1) a
    if g = 0 then a else eqAdd a (eqMul (.fin g) (eqSub b a))

/-- Decimal approximation of the square root (twelve fractional digits),
standing in for the IEEE double square root of the sample variance; the
float value is itself an approximation and no claim below depends on this
cell's value. -/
def ratSqrtApprox (q : Rat) : Rat :=
  if q ≤ 0 then 0
  else ((Nat.sqrt (q.num.toNat * q.den * 10 ^ 24) : Rat) / ((q.den : Rat) * 10 ^ 12))

/-- Series sample standard deviation (`ddof = 1`), skipna: NaN with fewer
than two non-NaN values. -/
def nanStd (xs : List EQ) : EQ :=
  let v := dropNan xs
  if v.length ≤ 1 then .nan
  else
    let m := nanMean xs
    let sq := v.map (fun x => eqMul (eqSub x m) (eqSub x m))
    match sq.foldr eqAdd (.fin 0) with
    | .fin s => .fin (ratSqrtApprox (s / ((v.length : Rat) - 1)))
    | .pinf => .pinf
    | .ninf => .pinf
    | .nan => .nan

/-- Modelled from the spec: the input file itself (`src/data/Superstore.csv`)
is not part of the sources, so its header order is taken from the fixed
column list of the external-interface section of the specification. -/
def baseCols : List String :=
  ["Order Date", "Ship Date", "Ship Mode", "Region", "Category", "Segment",
   "State", "City", "Product Name", "Sub-Category", "Customer Name",
   "Customer ID", "Order ID", "Sales", "Profit", "Quantity", "Discount"]

/-- The dataframe columns after the loader appends the derived columns of
lines 50-53. -/
def dfCols : List String := baseCols ++ ["Year", "Month", "Month-Year", "Profit Margin"]

/-- The columns of `filtered_df` at export time, after line 312 has
appended `Shipping Days`. -/
def exportCols : List String := dfCols ++ ["Shipping Days"]

/-- Rendering of a rational cell. -/
def renderRat (q : Rat) : String := toString q

/-- Rendering of an integer cell. -/
def renderInt (i : Int) : String := toString i

/-- Two-digit zero padding for date components. -/
def pad2 (n : Int) : String := if n < 10 then "0" ++ toString n else toString n

/-- Rendering of a datetime cell (`YYYY-MM-DD`). -/
def renderDate (d : DateT) : String :=
  toString d.year ++ "-" ++ pad2 d.month ++ "-" ++ pad2 d.day

/-- Rendering of a month-period cell (`YYYY-MM`). -/
def renderMonthYear (d : DateT) : String := toString d.year ++ "-" ++ pad2 d.month

/-- Rendering of a float cell: pandas `to_csv` writes NaN as an empty
field and the infinities as `inf`/`-inf`. -/
def renderEQ : EQ → String
  | .fin q => toString q
  | .pinf => "inf"
  | .ninf => "-inf"
  | .nan => ""

/-- The cells of one exported row of the filtered view, in `exportCols`
order. -/
def rowCells (r : Record) : List String :=
  [renderDate r.orderDate, renderDate r.shipDate, r.shipMode, r.region,
   r.category, r.segment, r.state, r.city, r.productName, r.subCategory,
   r.customerName, r.customerID, r.orderID, renderRat r.sales,
   renderRat r.profit, renderInt r.quantity, renderRat r.discount,
   renderInt r.orderDate.year, renderInt r.orderDate.month,
   renderMonthYear r.orderDate, renderEQ (profitMargin r),
   renderInt (shippingDays r)]

/-- pandas `to_csv(index=False)` at cell level: the header line followed by
the data lines, nothing else. -/
def csvLinesNoIndex (header : List String) (rows : List (List String)) :
    List (List String) :=
  header :: rows

/-- Join cell lines into the delimited text: comma-separated fields,
newline-separated lines. -/
def joinCsv (lines : List (List String)) : String :=
  String.intercalate "\x0A" (lines.map (String.intercalate ","))

/-- Line 389: the cell lines of `filtered_df.to_csv(index=False)`. -/
def csv_lines (view : List Record) : List (List String) :=
  csvLinesNoIndex exportCols (view.map rowCells)

/-- Line 389: `csv = filtered_df.to_csv(index=False)`. -/
def csv (view : List Record) : String := joinCsv (csv_lines view)

/-- The three-key grouping of lines 410-415. -/
def key3 (r : Record) : List String := [r.category, r.subCategory, r.region]

/-- Lexicographic comparison of key triples. -/
def strListLeB : List String → List String → Bool
  | [], _ => true
  | _ :: _, [] => false
  | a :: as, b :: bs =>
    if strLeB a b && ! strLeB b a then true
    else if strLeB b a && ! strLeB a b then false
    else strListLeB as bs

/-- Lines 410-415: `groupby(['Category', 'Sub-Category', 'Region'])` with
sum of `Sales`, `Profit`, `Quantity` and `nunique` of `Order ID`. -/
def agg_data (view : List Record) :
    List (List String × Rat × Rat × Int × Nat) :=
  (isortBy strListLeB ((view.map key3).dedup)).map
    (fun k =>
      let g := view.filter (fun r => decide (key3 r = k))
      (k, (g.map (fun r => r.sales)).sum, (g.map (fun r => r.profit)).sum,
        (g.map (fun r => r.quantity)).sum,
        ((g.map (fun r => r.orderID)).dedup).length))

/-- Header of the aggregated export. -/
def aggCols : List String :=
  ["Category", "Sub-Category", "Region", "Sales", "Profit", "Quantity", "Order ID"]

/-- The cells of one aggregated-export row. -/
def aggRowCells (x : List String × Rat × Rat × Int × Nat) : List String :=
  x.1 ++ [renderRat x.2.1, renderRat x.2.2.1, renderInt x.2.2.2.1,
    toString x.2.2.2.2]

/-- Line 416: the cell lines of `agg_data.to_csv(index=False)`. -/
def agg_csv_lines (view : List Record) : List (List String) :=
  csvLinesNoIndex aggCols ((agg_data view).map aggRowCells)

/-- Line 416: `agg_csv = agg_data.to_csv(index=False)`. -/
def agg_csv (view : List Record) : String := joinCsv (agg_csv_lines view)

/-- The numeric columns of `filtered_df` at describe time, in dataframe
column order: the numeric input columns, then the derived `Year`, `Month`,
`Profit Margin` and the `Shipping Days` appended at line 312 (dates and the
month period are non-numeric and excluded by `describe`). -/
def summaryNumericCols : List String :=
  ["Sales", "Profit", "Quantity", "Discount", "Year", "Month",
   "Profit Margin", "Shipping Days"]

/-- The statistic rows of `describe`, in output order. -/
def statLabels : List String :=
  ["count", "mean", "std", "min", "25%", "50%", "75%", "max"]

/-- The float value of a numeric column at one record. -/
def colEQ (c : String) (r : Record) : EQ :=
  if c = "Sales" then .fin r.sales
  else if c = "Profit" then .fin r.profit
  else if c = "Quantity" then .fin (r.quantity : Rat)
  else if c = "Discount" then .fin r.discount
  else if c = "Year" then .fin (r.orderDate.year : Rat)
  else if c = "Month" then .fin (r.orderDate.month : Rat)
  else if c = "Profit Margin" then profitMargin r
  else .fin ((shippingDays r : Int) : Rat)

/-- One statistic of `describe` over a column. -/
def statEQ (lbl : String) (xs : List EQ) : EQ :=
  if lbl = "count" then .fin ((dropNan xs).length : Rat)
  else if lbl = "mean" then nanMean xs
  else if lbl = "std" then nanStd xs
  else if lbl = "min" then nanMin xs
  else if lbl = "25%" then quantileEQ (1/4) xs
  else if lbl = "50%" then quantileEQ (1/2) xs
  else if lbl = "75%" then quantileEQ (3/4) xs
  else if lbl = "max" then nanMax xs
  else .nan

/-- The rendered data cells of one statistic row of
`filtered_df.describe()`, in `summaryNumericCols` order. -/
def describeRow (view : List Record) (lbl : String) : List String :=
  summaryNumericCols.map (fun c => renderEQ (statEQ lbl (view.map (colEQ c))))

/-- Lines 399-400: the cell lines of `filtered_df.describe().to_csv()` —
`to_csv` is called without `index=False` here, so the statistic-name index
is written out: an empty leading header field and a leading label cell on
every data line. -/
def summary_csv_lines (view : List Record) : List (List String) :=
  ("" :: summaryNumericCols) ::
    (statLabels.zip (statLabels.map (describeRow view))).map
      (fun p => p.1 :: p.2)

/-- Line 400: `summary_csv = summary_stats.to_csv()`. -/
def summary_csv (view : List Record) : String := joinCsv (summary_csv_lines view)

/-- C1: a record is in the filtered view iff it is in the dataset, its
order date lies in `[startDate, endDate]` inclusive, its region, category
and segment are members of the respective selected lists, and, when the
states selection is non-empty, its state is a member of it; with an empty
states selection the result is exactly the filter with the state predicate
omitted. -/
theorem filtered_df_mem_iff (df : List Record) (c : Criteria) (r : Record) :
    (r ∈ filtered_df df c ↔
      r ∈ df ∧ c.startDate ≤ r.orderDate.serial ∧ r.orderDate.serial ≤ c.endDate ∧
        r.region ∈ c.regions ∧ r.category ∈ c.categories ∧ r.segment ∈ c.segments ∧
        (c.states = [] ∨ r.state ∈ c.states)) ∧
    (c.states = [] → filtered_df df c = filtered_df_base df c) := by
  constructor
  · by_cases h : c.states = []
    · simp [filtered_df, h, filtered_df_base, rowPred, List.mem_filter, and_assoc]
    · simp [filtered_df, List.isEmpty_iff, h, filtered_df_base, rowPred,
        List.mem_filter, and_assoc]
      tauto
  · intro h
    simp [filtered_df, h]

/-- Witness for C1: on a concrete two-record dataset, the characterization
admits the matching record, and with empty states the view equals the base
filter. -/
theorem filtered_df_mem_iff_witness :
    (exRecord ∈ filtered_df exDf exCriteria) ∧
      (filtered_df exDf exCriteriaNoState = filtered_df_base exDf exCriteriaNoState) :=
  ⟨(filtered_df_mem_iff exDf exCriteria exRecord).1.mpr (by decide),
   (filtered_df_mem_iff exDf exCriteriaNoState exRecord).2 (by decide)⟩

/-- C3: an empty regions (or categories, or segments) selection yields an
empty filtered view, whatever the other criteria. -/
theorem filtered_df_empty_dimension (df : List Record) (c : Criteria) :
    (c.regions = [] → filtered_df df c = []) ∧
    (c.categories = [] → filtered_df df c = []) ∧
    (c.segments = [] → filtered_df df c = []) := by
  have hbase : ∀ h : Criteria → List String,
      (h c = []) → (∀ r, h c = [] → rowPred c r = false) → filtered_df df c = [] := by
    intro h hh hp
    have hb : filtered_df_base df c = [] := by
      simp only [filtered_df_base, List.filter_eq_nil_iff]
      intro a _
      simp [hp a hh]
    unfold filtered_df
    rw [hb]
    simp
  refine ⟨fun h => ?_, fun h => ?_, fun h => ?_⟩
  · exact hbase Criteria.regions h (fun r hh => by simp [rowPred, hh])
  · exact hbase Criteria.categories h (fun r hh => by simp [rowPred, hh])
  · exact hbase Criteria.segments h (fun r hh => by simp [rowPred, hh])

/-- Witness for C3: a concrete criteria value with an empty regions list
filters a concrete non-empty dataset down to nothing. -/
theorem filtered_df_empty_dimension_witness :
    filtered_df exDf exCriteriaEmptyRegions = [] :=
  (filtered_df_empty_dimension exDf exCriteriaEmptyRegions).1 (by decide)

/-- C4: the filtered view is a sublist of the dataset (hence no longer than
it), and re-filtering the filtered view with the same criteria changes
nothing. -/
theorem filtered_df_sublist_idempotent (df : List Record) (c : Criteria) :
    (filtered_df df c).Sublist df ∧
    (filtered_df df c).length ≤ df.length ∧
    filtered_df (filtered_df df c) c = filtered_df df c := by
  have hsub : (filtered_df df c).Sublist df := by
    by_cases h : c.states.isEmpty
    · rw [filtered_df, if_pos h]
      exact List.filter_sublist df
    · rw [filtered_df, if_neg h]
      exact (List.filter_sublist (filtered_df_base df c)).trans (List.filter_sublist df)
  have hall : ∀ r ∈ filtered_df df c, rowPred c r = true := by
    intro r hr
    by_cases h : c.states.isEmpty
    · rw [filtered_df, if_pos h] at hr
      exact (List.mem_filter.mp hr).2
    · rw [filtered_df, if_neg h] at hr
      exact (List.mem_filter.mp (List.mem_filter.mp hr).1).2
  have hstate : ∀ r ∈ filtered_df df c, ¬ c.states.isEmpty = true →
      decide (r.state ∈ c.states) = true := by
    intro r hr h
    rw [filtered_df, if_neg h] at hr
    exact (List.mem_filter.mp hr).2
  have h1 : filtered_df_base (filtered_df df c) c = filtered_df df c :=
    List.filter_eq_self.mpr hall
  refine ⟨hsub, hsub.length_le, ?_⟩
  by_cases h : c.states.isEmpty
  · rw [filtered_df, if_pos h]
    exact h1
  · rw [filtered_df, if_neg h, h1]
    exact List.filter_eq_self.mpr (fun r hr => hstate r hr h)

theorem fin_ne_nan (q : Rat) : EQ.fin q ≠ EQ.nan := fun h => EQ.noConfusion h

theorem pinf_ne_nan : EQ.pinf ≠ EQ.nan := fun h => EQ.noConfusion h

theorem ninf_ne_nan : EQ.ninf ≠ EQ.nan := fun h => EQ.noConfusion h

theorem mem_insertBy {α : Type} (r : α → α → Bool) (a x : α) (l : List α) :
    x ∈ insertBy r a l ↔ x = a ∨ x ∈ l := by
  induction l with
  | nil => simp [insertBy]
  | cons b l ih =>
    by_cases h : r a b
    · simp [insertBy, h]
    · simp [insertBy, h, ih]
      tauto

theorem perm_insertBy {α : Type} (r : α → α → Bool) (a : α) (l : List α) :
    List.Perm (insertBy r a l) (a :: l) := by
  induction l with
  | nil => exact List.Perm.refl _
  | cons b l ih =>
    by_cases h : r a b
    · rw [insertBy, if_pos h]
    · rw [insertBy, if_neg h]
      exact (ih.cons b).trans (List.Perm.swap a b l)

theorem perm_isortBy {α : Type} (r : α → α → Bool) (l : List α) :
    List.Perm (isortBy r l) l := by
  induction l with
  | nil => exact List.Perm.refl _
  | cons a l ih =>
    exact (perm_insertBy r a (isortBy r l)).trans (ih.cons a)

theorem mem_isortBy {α : Type} (r : α → α → Bool) (x : α) (l : List α) :
    x ∈ isortBy r l ↔ x ∈ l :=
  (perm_isortBy r l).mem_iff

theorem pairwise_insertBy {α : Type} {r : α → α → Bool}
    (htot : ∀ a b, r a b = true ∨ r b a = true)
    (htrans : ∀ x y z, r x y = true → r y z = true → r x z = true)
    (a : α) {l : List α} (h : l.Pairwise (fun x y => r x y = true)) :
    (insertBy r a l).Pairwise (fun x y => r x y = true) := by
  induction l with
  | nil => simp [insertBy]
  | cons b l ih =>
    rcases List.pairwise_cons.mp h with ⟨hb, hl⟩
    by_cases hab : r a b
    · rw [insertBy, if_pos hab]
      refine List.pairwise_cons.mpr ⟨?_, h⟩
      intro x hx
      rcases List.mem_cons.mp hx with hxb | hx
      · rw [hxb]
        exact hab
      · exact htrans a b x hab (hb x hx)
    · rw [insertBy, if_neg hab]
      refine List.pairwise_cons.mpr ⟨?_, ih hl⟩
      intro x hx
      rcases (mem_insertBy r a x l).mp hx with hxa | hx
      · rw [hxa]
        exact (htot a b).resolve_left hab
      · exact hb x hx

theorem pairwise_isortBy {α : Type} {r : α → α → Bool}
    (htot : ∀ a b, r a b = true ∨ r b a = true)
    (htrans : ∀ x y z, r x y = true → r y z = true → r x z = true)
    (l : List α) : (isortBy r l).Pairwise (fun x y => r x y = true) := by
  induction l with
  | nil => simp [isortBy]
  | cons a l ih => exact pairwise_insertBy htot htrans a ih

theorem filter_insertBy_pos {α : Type} {r : α → α → Bool} {p : α → Bool} {a : α}
    (hpa : p a = true) (hskip : ∀ b, r a b = false → p b = false) (l : List α) :
    (insertBy r a l).filter p = a :: l.filter p := by
  induction l with
  | nil => simp [insertBy, hpa]
  | cons b l ih =>
    by_cases hab : r a b
    · rw [insertBy, if_pos hab]
      simp [List.filter_cons, hpa]
    · rw [insertBy, if_neg hab]
      have hpb : p b = false := hskip b (by simpa using hab)
      simp [List.filter_cons, hpb, ih]

theorem filter_insertBy_neg {α : Type} {r : α → α → Bool} {p : α → Bool} {a : α}
    (hpa : p a = false) (l : List α) :
    (insertBy r a l).filter p = l.filter p := by
  induction l with
  | nil => simp [insertBy, hpa]
  | cons b l ih =>
    by_cases hab : r a b
    · rw [insertBy, if_pos hab]
      simp [List.filter_cons, hpa]
    · rw [insertBy, if_neg hab]
      simp [List.filter_cons, ih]

theorem filter_isortBy {α : Type} {r : α → α → Bool} (p : α → Bool)
    (hcl : ∀ a, p a = true → ∀ b, r a b = false → p b = false) (l : List α) :
    (isortBy r l).filter p = l.filter p := by
  induction l with
  | nil => rfl
  | cons a l ih =>
    by_cases hpa : p a
    · rw [isortBy, filter_insertBy_pos hpa (hcl a hpa), ih,
        List.filter_cons_of_pos hpa]
    · rw [isortBy, filter_insertBy_neg (by simpa using hpa), ih]
      simp [List.filter_cons, hpa]

theorem sum_map_filter_split {α : Type} (p : α → Bool) (val : α → Rat)
    (l : List α) :
    ((l.filter p).map val).sum + ((l.filter (fun x => ! p x)).map val).sum
      = (l.map val).sum := by
  induction l with
  | nil => simp
  | cons a l ih =>
    by_cases h : p a
    · rw [List.filter_cons_of_pos h, List.filter_cons_of_neg (by simp [h]),
        List.map_cons, List.sum_cons, List.map_cons, List.sum_cons, add_assoc, ih]
    · rw [List.filter_cons_of_neg (by simp [h]), List.filter_cons_of_pos (by simp [h]),
        List.map_cons, List.sum_cons, List.map_cons, List.sum_cons,
        ← add_assoc, add_comm (((l.filter p).map val).sum) (val a), add_assoc, ih]

theorem sum_group_parts {key : Record → String} {val : Record → Rat}
    (ks : List String) (view : List Record) (hnd : ks.Nodup)
    (hcov : ∀ r ∈ view, key r ∈ ks) :
    (ks.map (fun k => ((view.filter (fun r => decide (key r = k))).map val).sum)).sum
      = (view.map val).sum := by
  induction ks generalizing view with
  | nil =>
    have hv : view = [] := by
      rw [List.eq_nil_iff_forall_not_mem]
      intro a ha
      exact absurd (hcov a ha) (List.not_mem_nil (key a))
    subst hv
    simp
  | cons k ks ih =>
    have hknotin : k ∉ ks := (List.nodup_cons.mp hnd).1
    have hndt : ks.Nodup := (List.nodup_cons.mp hnd).2
    have hcong : ∀ k' ∈ ks,
        (view.filter (fun r => decide (key r = k'))) =
          ((view.filter (fun r => ! decide (key r = k))).filter
            (fun r => decide (key r = k'))) := by
      intro k' hk'
      have hne : k' ≠ k := fun h => hknotin (h ▸ hk')
      rw [List.filter_filter]
      refine List.filter_congr ?_
      intro x hx
      by_cases hxk : key x = k'
      · simp [hxk, hne]
      · simp [hxk]
    have hcov' : ∀ r ∈ view.filter (fun r => ! decide (key r = k)), key r ∈ ks := by
      intro r hr
      rcases List.mem_filter.mp hr with ⟨hrv, hcond⟩
      rcases List.mem_cons.mp (hcov r hrv) with h | h
      · exfalso
        simp [h] at hcond
      · exact h
    have hmapeq :
        ks.map (fun k' => ((view.filter (fun r => decide (key r = k'))).map val).sum)
          = ks.map (fun k' =>
              (((view.filter (fun r => ! decide (key r = k))).filter
                (fun r => decide (key r = k'))).map val).sum) :=
      List.map_congr_left (fun k' hk' => by rw [hcong k' hk'])
    rw [List.map_cons, List.sum_cons, hmapeq,
      ih (view.filter (fun r => ! decide (key r = k))) hndt hcov']
    exact sum_map_filter_split (fun r => decide (key r = k)) val view

theorem groupBySum_snd_sum (key : Record → String) (val : Record → Rat)
    (view : List Record) :
    ((groupBySum key val view).map Prod.snd).sum = (view.map val).sum := by
  unfold groupBySum
  rw [List.map_map]
  have hnd : (isortBy strLeB ((view.map key).dedup)).Nodup :=
    (perm_isortBy strLeB ((view.map key).dedup)).symm.nodup
      (List.nodup_dedup (view.map key))
  have hcov : ∀ r ∈ view, key r ∈ isortBy strLeB ((view.map key).dedup) := by
    intro r hr
    rw [mem_isortBy, List.mem_dedup]
    exact List.mem_map_of_mem key hr
  exact sum_group_parts _ view hnd hcov

/-- C5: for every filtered view, the sum of the per-group sales totals of a
grouped-sum aggregation equals the view total sales, both for an arbitrary
grouping dimension and for the dimensions used by the dashboard (category,
region, state, product name). -/
theorem grouped_sales_conservation (view : List Record) :
    (∀ key : Record → String,
      ((groupBySum key (fun r => r.sales) view).map Prod.snd).sum = total_sales view) ∧
    ((category_sales view).map Prod.snd).sum = total_sales view ∧
    ((region_sales view).map Prod.snd).sum = total_sales view ∧
    ((state_sales view).map Prod.snd).sum = total_sales view ∧
    ((product_sales view).map Prod.snd).sum = total_sales view := by
  refine ⟨fun key => groupBySum_snd_sum key _ view, ?_, ?_, ?_, ?_⟩ <;>
    exact groupBySum_snd_sum _ _ view

/-- C6: `nlargest n` returns at most n rows, sorted descending by the
reduction value, every returned row is a row of the grouped input, and
ties are broken in favor of the first-encountered row: for every value, the
returned rows carrying that value are an initial segment, in input order,
of the input rows carrying it. -/
theorem nlargest_spec (n : Nat) (l : List (String × Rat)) :
    (nlargest n l).length ≤ n ∧
    (nlargest n l).Pairwise (fun a b => b.2 ≤ a.2) ∧
    (∀ x ∈ nlargest n l, x ∈ l) ∧
    ∀ q : Rat, (nlargest n l).filter (fun x => decide (x.2 = q)) <+:
      l.filter (fun x => decide (x.2 = q)) := by
  have htot : ∀ a b : String × Rat, valDescB a b = true ∨ valDescB b a = true := by
    intro a b
    simp only [valDescB, decide_eq_true_eq]
    exact le_total b.2 a.2
  have htrans : ∀ x y z : String × Rat,
      valDescB x y = true → valDescB y z = true → valDescB x z = true := by
    intro x y z hxy hyz
    simp only [valDescB, decide_eq_true_eq] at *
    exact le_trans hyz hxy
  refine ⟨?_, ?_, ?_, ?_⟩
  · exact List.length_take_le n _
  · have hs := pairwise_isortBy htot htrans l
    have hp := List.Pairwise.sublist (List.take_sublist n (isortBy valDescB l)) hs
    exact hp.imp (fun h => by simpa [valDescB] using h)
  · intro x hx
    exact (mem_isortBy valDescB x l).mp (List.mem_of_mem_take hx)
  · intro q
    have hcl : ∀ a : String × Rat, decide (a.2 = q) = true →
        ∀ b, valDescB a b = false → decide (b.2 = q) = false := by
      intro a ha b hb
      simp only [decide_eq_true_eq] at ha
      simp only [valDescB, decide_eq_false_iff_not] at hb ⊢
      intro hbq
      exact hb (le_of_eq (hbq.trans ha.symm))
    have h1 : (isortBy valDescB l).filter (fun x => decide (x.2 = q)) =
        l.filter (fun x => decide (x.2 = q)) :=
      filter_isortBy _ hcl l
    have htp := List.take_prefix n (isortBy valDescB l)
    have h2 := List.IsPrefix.filter (fun x => decide (x.2 = q)) htp
    rw [h1] at h2
    exact h2

/-- Witness for C6 on a concrete grouped result with a tie: the second
returned row is a row of the input. -/
theorem nlargest_spec_witness : ("A", (5 : Rat)) ∈ exGrouped :=
  (nlargest_spec 2 exGrouped).2.2.1 ("A", (5 : Rat)) (by decide)

/-- C2, behaviour of the code at the failing input: over a view holding a
record with `Sales = 0, Profit = 10` next to a record with margin 10, the
reported average profit margin is the folded-in `+inf`, not the mean `10`
of the finite margins that the specification requires. -/
theorem avg_profit_margin_folds_infinite :
    avg_profit_margin [exRecZeroSales, exRecord] = EQ.pinf ∧
    avg_profit_margin_spec [exRecZeroSales, exRecord] = EQ.fin 10 ∧
    profitMargin exRecZeroSales = EQ.pinf := by
  refine ⟨?_, ?_, by decide⟩
  · norm_num [avg_profit_margin, nanMean, profitMargin, pdMargin, exRecZeroSales,
      exRecord, eqAdd, fin_ne_nan, pinf_ne_nan]
  · norm_num [avg_profit_margin_spec, profitMargin, pdMargin, exRecZeroSales, exRecord,
      Option.some_ne_none, List.filterMap_cons, List.filterMap_nil]

/-- C8, behaviour of the code at the failing input: a record shipped four
days before it was ordered gets shipping-days `-4`, and that negative value
is folded silently into the ship-mode mean shipping days; no data-quality
warning exists in the pipeline. -/
theorem ship_time_accepts_negative :
    shippingDays exRecNegShip = -4 ∧
    ship_time [exRecNegShip] = [("Standard Class", (-4 : Rat))] := by
  refine ⟨by decide, ?_⟩
  norm_num [ship_time, groupByMeanZ, shippingDays, exRecNegShip, exDate, exDate2,
    isortBy, insertBy, strLeB]

/-- C10: in the sub-category summary, for every group whose sales sum is
non-zero the Profit Margin column holds the ratio of sums,
`100 * (profit sum) / (sales sum)`. -/
theorem subcat_margin_ratio_of_sums (view : List Record) (k : String)
    (s p : Rat) (hmem : (k, s, p) ∈ subcat_data view) (hs : s ≠ 0) :
    (k, pdMargin s p) ∈ subcat_margin view ∧
      pdMargin s p = EQ.fin (100 * p / s) := by
  constructor
  · exact List.mem_map_of_mem (fun x => (x.1, pdMargin x.2.1 x.2.2)) hmem
  · rw [pdMargin, if_pos hs, div_mul_eq_mul_div, mul_comm p 100]

/-- Witness for C10 on the concrete two-record dataset: the Binders group
has sales sum 100, profit sum 10 and margin 10%. -/
theorem subcat_margin_ratio_of_sums_witness :
    ("Binders", pdMargin 100 10) ∈ subcat_margin exDf ∧
      pdMargin 100 10 = EQ.fin (100 * 10 / 100) :=
  subcat_margin_ratio_of_sums exDf "Binders" 100 10
    (by
      have h1 : strLeB "Binders" "Chairs" = true := by decide
      have h2 : ("Binders" : String) ≠ "Chairs" := by decide
      have h3 : ("Chairs" : String) ≠ "Binders" := by decide
      norm_num [subcat_data, exDf, exRecord, exRecord2, isortBy, insertBy, h1, h2, h3])
    (by norm_num)

/-- C7: after a whole filter-aggregate cycle — the boolean-mask filter, the
in-place `Shipping Days` assignment on the filtered frame, and the
(read-only) aggregations — the loaded dataset frame is unchanged: same
rows, same columns. -/
theorem source_frame_unchanged (df : List Record) (c : Criteria) :
    (runCycle df c).head? = some (PandasFrame.mk df false) ∧
    (runCycle df c).getLast? = some (PandasFrame.mk (filtered_df df c) true) := by
  constructor <;> rfl

/-- C9 (amended): the filtered-view export and the aggregated export are
serialized with a header line naming exactly the payload's data columns and
with data lines holding exactly the data-column cells (no index leakage,
fixed column order); the summary-statistics export, produced by `to_csv()`
without `index=False`, carries its statistic-name index as an additional
leading column: an empty leading header field and one label cell in front
of every data line. -/
theorem export_payloads_shape (view : List Record) :
    (csv_lines view).head? = some exportCols ∧
    (∀ l ∈ (csv_lines view).tail, l.length = exportCols.length) ∧
    (agg_csv_lines view).head? = some aggCols ∧
    (∀ l ∈ (agg_csv_lines view).tail, l.length = aggCols.length) ∧
    (summary_csv_lines view).head? = some ("" :: summaryNumericCols) ∧
    (∀ l ∈ (summary_csv_lines view).tail,
      l.length = summaryNumericCols.length + 1) := by
  refine ⟨rfl, ?_, rfl, ?_, rfl, ?_⟩
  · intro l hl
    simp only [csv_lines, csvLinesNoIndex, List.tail_cons] at hl
    obtain ⟨r, _, rfl⟩ := List.mem_map.mp hl
    rfl
  · intro l hl
    simp only [agg_csv_lines, csvLinesNoIndex, List.tail_cons] at hl
    obtain ⟨x, hx, rfl⟩ := List.mem_map.mp hl
    unfold agg_data at hx
    obtain ⟨k, hk, rfl⟩ := List.mem_map.mp hx
    have hk3 : k.length = 3 := by
      have hmem := (mem_isortBy strListLeB k ((view.map key3).dedup)).mp hk
      rw [List.mem_dedup] at hmem
      obtain ⟨r, _, rfl⟩ := List.mem_map.mp hmem
      rfl
    simp [aggRowCells, aggCols, hk3]
  · intro l hl
    simp only [summary_csv_lines, List.tail_cons] at hl
    obtain ⟨p, hp, rfl⟩ := List.mem_map.mp hl
    obtain ⟨pa, pb⟩ := p
    have h2 := (List.of_mem_zip hp).2
    obtain ⟨lbl, _, rfl⟩ := List.mem_map.mp h2
    simp [describeRow]

/-- Counterexample for C9 as stated: the summary-statistics payload is not
the index-free serialization — its second line leads with the row-index
label `count`, not with a data-column value. -/
theorem summary_csv_leaks_index :
    summary_csv_lines [exRecord] ≠
      summaryNumericCols :: (statLabels.map (describeRow [exRecord])) ∧
    ((summary_csv_lines [exRecord]).getD 1 []).headD "" = "count" := by
  constructor
  · intro h
    have h0 := congrArg (fun l => (l.headD ([] : List String)).length) h
    simp [summary_csv_lines, summaryNumericCols] at h0
  · rfl

/-- Witness for C9: each of the three data-line length facts applied at a
concrete one-record view. -/
theorem export_payloads_shape_witness :
    (rowCells exRecord).length = exportCols.length ∧
    (aggRowCells (["Office Supplies", "Binders", "East"],
      (100 : Rat), (10 : Rat), (2 : Int), (1 : Nat))).length = aggCols.length ∧
    ("count" :: describeRow [exRecord] "count").length =
      summaryNumericCols.length + 1 :=
  ⟨(export_payloads_shape [exRecord]).2.1 (rowCells exRecord)
      (by simp [csv_lines, csvLinesNoIndex]),
   (export_payloads_shape [exRecord]).2.2.2.1
      (aggRowCells (["Office Supplies", "Binders", "East"],
        (100 : Rat), (10 : Rat), (2 : Int), (1 : Nat)))
      (by norm_num [agg_csv_lines, csvLinesNoIndex, agg_data, key3, exRecord,
        isortBy, insertBy]),
   (export_payloads_shape [exRecord]).2.2.2.2.2
      ("count" :: describeRow [exRecord] "count")
      (by simp [summary_csv_lines, statLabels])⟩
